import Mathlib

/-!
Shallow embedding of the server-side HTTP handlers of the Look-Mtkp
repository: the MoonPay signature endpoint and the Jupiter Ultra
order/execute proxies, each in its two hosting variants (Vite dev-server
middleware in vite.config.ts, and standalone Vercel function handlers).

Each handler is modelled as a pure function from an abstract request plus
configuration to either an immediate client response or a description of
the single upstream fetch it performs; a second stage turns the outcome of
that fetch (a response, or a thrown exception carrying a message) into the
final client response. JavaScript platform primitives that are not part of
the repository (the WHATWG URL constructor, the HMAC routine from
node:crypto, JSON.parse on raw bytes) are passed in as parameters or
represented by small abstract result types, so that the handler logic
itself is translated line by line from the source.
-/

namespace LookMtkp

/-- The response a handler sends to the HTTP client: status code, optional
Content-Type header, optional Allow header, and body text. A call of
res.end() with no argument is modelled as an empty body. -/
structure ClientResponse where
  status : Nat
  contentType : Option String
  allow : Option String
  body : String
deriving DecidableEq, Repr

/-- The observable part of an upstream fetch response that the handlers
read: status, the content-type header if present, and the body text. -/
structure UpstreamResponse where
  status : Nat
  contentType : Option String
  body : String
deriving DecidableEq, Repr

/-- The upstream fetch request a proxy handler issues: method, full URL,
header list, and optional body. -/
structure UpstreamRequest where
  method : String
  url : String
  headers : List (String × String)
  body : Option String
deriving DecidableEq, Repr

/-- First stage of a handler run: either it finishes with a client
response without contacting the upstream API, or it issues exactly one
upstream fetch described by the request. -/
inductive Stage1 where
  | done (resp : ClientResponse)
  | fetch (ureq : UpstreamRequest)
deriving DecidableEq, Repr

/-- Fixed upstream base URL (constant JUPITER_ULTRA_BASE_URL in both
vite.config.ts and the Vercel handlers). -/
def JUPITER_ULTRA_BASE_URL : String := "https://api.jup.ag/ultra/v1"

/-- Hex digit for JSON control-character escapes (lowercase, as produced
by JSON.stringify). -/
def hexLowerDigit (n : Nat) : Char :=
  if n < 10 then Char.ofNat (48 + n) else Char.ofNat (87 + n)

/-- Escape of a single character in a JSON string literal, following
JSON.stringify: quote, backslash, the named control escapes, and \u00XX
for the remaining control characters. -/
def jsonEscapeChar (c : Char) : String :=
  if c = Char.ofNat 34 then "\\\""
  else if c = Char.ofNat 92 then "\\\\"
  else if c = Char.ofNat 8 then "\\b"
  else if c = Char.ofNat 9 then "\\t"
  else if c = Char.ofNat 10 then "\\n"
  else if c = Char.ofNat 12 then "\\f"
  else if c = Char.ofNat 13 then "\\r"
  else if c.toNat < 32 then
    "\\u00" ++ String.mk [hexLowerDigit (c.toNat / 16), hexLowerDigit (c.toNat % 16)]
  else String.singleton c

/-- JSON.stringify escaping applied to a whole string. -/
def jsonEscape (s : String) : String :=
  String.join (s.data.map jsonEscapeChar)

/-- A JSON string literal, quotes included. -/
def jsonStr (s : String) : String :=
  "\"" ++ jsonEscape s ++ "\""

/-- JSON.stringify of an object with one string-valued field. -/
def jsonObj1 (k v : String) : String :=
  "\x7b" ++ jsonStr k ++ ":" ++ jsonStr v ++ "\x7d"

/-- JSON.stringify of an object with two string-valued fields, in the
given order. -/
def jsonObj2 (k1 v1 k2 v2 : String) : String :=
  "\x7b" ++ jsonStr k1 ++ ":" ++ jsonStr v1 ++ "," ++ jsonStr k2 ++ ":" ++ jsonStr v2 ++ "\x7d"

/-- Body of an error response, JSON.stringify of an object with an error field. -/
def jsonError (msg : String) : String :=
  jsonObj1 "error" msg

/-- Models sendJson from vite.config.ts and the res.status(s).json(p)
chain of the Vercel handlers: sets the status, a JSON content type, and
the serialized payload as the body. -/
def sendJson (status : Nat) (body : String) : ClientResponse :=
  ⟨status, some "application/json", none, body⟩

/-- The 405 response every handler produces on a method mismatch: Allow
header set to the single accepted method, empty body, no content type. -/
def methodNotAllowed (allow : String) : ClientResponse :=
  ⟨405, none, some allow, ""⟩

/-- A JSON value as far as the handlers inspect one: they only ever test
whether a field is a string (typeof v === "string"); every non-string
value behaves alike. -/
inductive JVal where
  | str (s : String)
  | other
deriving DecidableEq, Repr

/-- The fields of a parsed JSON object body. -/
abbrev JsonFields := List (String × JVal)

/-- Field access pattern typeof body.k === "string" ? body.k : undefined:
yields the string when field k holds one, undefined (none) otherwise. -/
def lookupStr (fields : JsonFields) (name : String) : Option String :=
  match fields.lookup name with
  | some (.str s) => some s
  | _ => none

/-- Outcome of reading and JSON-parsing a request body, abstracting the
raw byte stream: an empty stream (readBody resolves with an empty
object), a stream whose JSON.parse throws with the given message, a
stream whose JSON text is null (JSON.parse succeeds, but the later
property access throws a TypeError), or a stream parsing to a value with
the given string-valued fields. A parse result that is an array or a
primitive other than null is covered by obj, since property access on it
silently yields undefined, exactly as on an object without the field. -/
inductive BodyRaw where
  | empty
  | invalid (msg : String)
  | nullParse
  | obj (fields : JsonFields)
deriving DecidableEq, Repr

/-- A successfully parsed body value as the handlers then inspect it:
JSON null, on which reading any property throws a TypeError, or anything
else, accessed through lookupStr. -/
inductive BodyVal where
  | nullVal
  | objVal (fields : JsonFields)
deriving DecidableEq, Repr

/-- The TypeError message the runtime raises when a property of null is
read, as it surfaces in the catch blocks. -/
def nullReadMsg (field : String) : String :=
  "Cannot read properties of null (reading \x27" ++ field ++ "\x27)"

/-- readBody from vite.config.ts: resolves data ? JSON.parse(data) : an
empty object, rejecting with the parse error when JSON.parse throws; a
JSON text of null resolves to the null value. -/
def readBodyResult : BodyRaw → Except String BodyVal
  | .empty => .ok (.objVal [])
  | .invalid msg => .error msg
  | .nullParse => .ok .nullVal
  | .obj fields => .ok (.objVal fields)

/-- Error message of the signature endpoint when no secret is configured. -/
def moonPayMissingSecretMsg : String :=
  "MoonPay secret key is not configured on the server."

/-- Error message of the signature endpoint when the url field is absent. -/
def moonPayMissingUrlMsg : String :=
  "Missing url in MoonPay signature payload."

/-- The /api/sign-moonpay middleware of registerMoonPaySignatureEndpoint
in vite.config.ts. Parameters urlSearch and hmacSha256Base64 model the
platform primitives: urlSearch u is the search component (with leading
question mark) of new URL(u), or the thrown error message when the URL
constructor rejects u; hmacSha256Base64 key msg is the base64 digest of
createHmac("sha256", key).update(msg). The falsy test !secret holds for
an unset secret and for the empty string. A body parsing to JSON null
makes the access body.url throw a TypeError inside the try, which the
catch turns into a 500 carrying that message. -/
def signMoonPayHandler (urlSearch : String → Except String String)
    (hmacSha256Base64 : String → String → String)
    (secret : Option String) (method : String) (body : BodyRaw) : ClientResponse :=
  if method ≠ "POST" then methodNotAllowed "POST"
  else
    match secret with
    | none => sendJson 500 (jsonError moonPayMissingSecretMsg)
    | some sec =>
      if sec = "" then sendJson 500 (jsonError moonPayMissingSecretMsg)
      else
        match readBodyResult body with
        | .error msg => sendJson 500 (jsonError msg)
        | .ok .nullVal => sendJson 500 (jsonError (nullReadMsg "url"))
        | .ok (.objVal fields) =>
          match lookupStr fields "url" with
          | none => sendJson 400 (jsonError moonPayMissingUrlMsg)
          | some u =>
            if u = "" then sendJson 400 (jsonError moonPayMissingUrlMsg)
            else
              match urlSearch u with
              | .error msg => sendJson 500 (jsonError msg)
              | .ok q => sendJson 200 (jsonObj1 "signature" (hmacSha256Base64 sec q))

/-- forwardJupiterResponse from vite.config.ts: relays the upstream
status, the upstream content type defaulting to application/json, and the
body text, substituting the two-character object literal when the body is
empty (body or-else default). -/
def forwardJupiterResponse (up : UpstreamResponse) : ClientResponse :=
  ⟨up.status, some (up.contentType.getD "application/json"), none,
    if up.body = "" then "\x7b\x7d" else up.body⟩

/-- forwardResponse from the Vercel handlers, textually the same relay as
forwardJupiterResponse. -/
def forwardResponse (up : UpstreamResponse) : ClientResponse :=
  ⟨up.status, some (up.contentType.getD "application/json"), none,
    if up.body = "" then "\x7b\x7d" else up.body⟩

/-- Outcome of the single upstream fetch plus reading its body text:
either the observed upstream response, or a thrown exception carrying a
message (fetch rejection or a failure while reading the body). -/
abbrev FetchResult := Except String UpstreamResponse

/-- The catch-all of the middleware proxy handlers around the fetch: a
successful upstream response is relayed through forwardJupiterResponse, a
thrown exception becomes a 500 whose error field is the exception
message. -/
def runFetchMw (fr : FetchResult) : ClientResponse :=
  match fr with
  | .ok up => forwardJupiterResponse up
  | .error msg => sendJson 500 (jsonError msg)

/-- The catch-all of the Vercel handlers around the fetch, using
forwardResponse. -/
def runFetchVercel (fr : FetchResult) : ClientResponse :=
  match fr with
  | .ok up => forwardResponse up
  | .error msg => sendJson 500 (jsonError msg)

/-- Error message of ensureApiKey in vite.config.ts. -/
def jupiterKeyMissingMwMsg : String :=
  "Jupiter Ultra API key is not configured on the server. Set JUPITER_ULTRA_API_KEY in your env."

/-- Error message of the Vercel handlers when the API key is absent. -/
def jupiterKeyMissingVercelMsg : String :=
  "Jupiter Ultra API key missing. Set JUPITER_ULTRA_API_KEY in Vercel env."

/-- A request to the /api/jupiter/order middleware: its method, the
search component of new URL(req.url, base) with its leading question
mark, and the parsed searchParams entries in order. -/
structure MwOrderRequest where
  method : String
  search : String
  params : List (String × String)
deriving DecidableEq, Repr

/-- url.searchParams.get: the first value recorded under the name, or
null (none) when absent. -/
def searchParamsGet (params : List (String × String)) (name : String) : Option String :=
  params.lookup name

/-- The required order parameters, in the order the source lists them. -/
def requiredOrderParams : List String :=
  ["inputMint", "outputMint", "amount", "taker"]

/-- JavaScript falsiness of an optional string: null/undefined and the
empty string are falsy. -/
def strFalsy : Option String → Bool
  | none => true
  | some s => s = ""

/-- The for loop over requiredParams in the order middleware: the first
parameter whose searchParams.get result is falsy (absent or empty), if
any. -/
def firstMissingParam (params : List (String × String)) : Option String :=
  requiredOrderParams.find? (fun p => strFalsy (searchParamsGet params p))

/-- First stage of the /api/jupiter/order middleware of
registerJupiterUltraEndpoints in vite.config.ts: method check, then
ensureApiKey (falsy key short-circuits with a 500), then the required
parameter loop, then the upstream GET to the base URL plus /order with
the original search string appended and the key in the x-api-key header. -/
def mwOrderStage1 (apiKey : Option String) (req : MwOrderRequest) : Stage1 :=
  if req.method ≠ "GET" then .done (methodNotAllowed "GET")
  else
    match apiKey with
    | none => .done (sendJson 500 (jsonError jupiterKeyMissingMwMsg))
    | some key =>
      if key = "" then .done (sendJson 500 (jsonError jupiterKeyMissingMwMsg))
      else
        match firstMissingParam req.params with
        | some p => .done (sendJson 400 (jsonError ("Missing required parameter: " ++ p)))
        | none =>
          .fetch ⟨"GET", JUPITER_ULTRA_BASE_URL ++ "/order" ++ req.search,
                  [("x-api-key", key)], none⟩

/-- The full order middleware: first stage, then the fetch outcome
relayed or caught. -/
def mwOrderHandler (apiKey : Option String) (req : MwOrderRequest)
    (fr : FetchResult) : ClientResponse :=
  match mwOrderStage1 apiKey req with
  | .done r => r
  | .fetch _ => runFetchMw fr

/-- A request to the /api/jupiter/execute middleware: its method and raw
body. -/
structure MwExecuteRequest where
  method : String
  body : BodyRaw
deriving DecidableEq, Repr

/-- The 400 message of the execute middleware. -/
def mwExecuteRequiredMsg : String :=
  "signedTransaction and requestId are required in the Jupiter execute payload."

/-- First stage of the /api/jupiter/execute middleware: method check,
ensureApiKey, readBody (a parse failure lands in the catch as a 500, and
a body parsing to JSON null throws a TypeError at the first access
body.signedTransaction, also caught as a 500), the falsy test on the
signedTransaction and requestId string fields, then the upstream POST
carrying exactly those two fields as its JSON body and the key in the
x-api-key header. -/
def mwExecuteStage1 (apiKey : Option String) (req : MwExecuteRequest) : Stage1 :=
  if req.method ≠ "POST" then .done (methodNotAllowed "POST")
  else
    match apiKey with
    | none => .done (sendJson 500 (jsonError jupiterKeyMissingMwMsg))
    | some key =>
      if key = "" then .done (sendJson 500 (jsonError jupiterKeyMissingMwMsg))
      else
        match readBodyResult req.body with
        | .error msg => .done (sendJson 500 (jsonError msg))
        | .ok .nullVal => .done (sendJson 500 (jsonError (nullReadMsg "signedTransaction")))
        | .ok (.objVal fields) =>
          match lookupStr fields "signedTransaction", lookupStr fields "requestId" with
          | some st, some rid =>
            if st = "" ∨ rid = "" then
              .done (sendJson 400 (jsonError mwExecuteRequiredMsg))
            else
              .fetch ⟨"POST", JUPITER_ULTRA_BASE_URL ++ "/execute",
                      [("x-api-key", key), ("Content-Type", "application/json")],
                      some (jsonObj2 "signedTransaction" st "requestId" rid)⟩
          | _, _ => .done (sendJson 400 (jsonError mwExecuteRequiredMsg))

/-- The full execute middleware. -/
def mwExecuteHandler (apiKey : Option String) (req : MwExecuteRequest)
    (fr : FetchResult) : ClientResponse :=
  match mwExecuteStage1 apiKey req with
  | .done r => r
  | .fetch _ => runFetchMw fr

/-- A value of the Vercel-parsed query object req.query: a single string
or an array of strings (repeated parameter). -/
inductive QVal where
  | str (s : String)
  | arr (xs : List String)
deriving DecidableEq, Repr

/-- A request to the Vercel order handler in api/jupiter-order.ts. The
search field records the raw query string of the request URL (leading
question mark included); the handler itself never reads it, only the
platform-parsed query, but claims about the original query string are
stated against it. -/
structure VercelOrderRequest where
  method : String
  search : String
  query : List (String × QVal)
deriving DecidableEq, Repr

/-- The missing test of the Vercel order handler for one key: an array
value is missing when its length is zero, any other value when it is
falsy (undefined or the empty string). -/
def qvalMissing : Option QVal → Bool
  | none => true
  | some (.arr xs) => xs.length = 0
  | some (.str s) => s = ""

/-- The filter over the four required keys in the Vercel order handler,
keeping source order. -/
def missingOrderParams (query : List (String × QVal)) : List String :=
  requiredOrderParams.filter (fun k => qvalMissing (query.lookup k))

/-- JavaScript String(v) applied to a query value: a string is itself, an
array joins its elements with commas, undefined prints as the word
undefined (unreachable after the missing check). -/
def qvalToString : Option QVal → String
  | some (.str s) => s
  | some (.arr xs) => String.intercalate "," xs
  | none => "undefined"

/-- Hex digit for percent-encoding (uppercase, as URLSearchParams
serializes). -/
def hexUpperDigit (n : Nat) : Char :=
  if n < 10 then Char.ofNat (48 + n) else Char.ofNat (55 + n)

/-- UTF-8 encoding of one code point, as the byte values. -/
def utf8Bytes (c : Char) : List Nat :=
  let n := c.toNat
  if n < 128 then [n]
  else if n < 2048 then [192 + n / 64, 128 + n % 64]
  else if n < 65536 then [224 + n / 4096, 128 + (n / 64) % 64, 128 + n % 64]
  else [240 + n / 262144, 128 + (n / 4096) % 64, 128 + (n / 64) % 64, 128 + n % 64]

/-- One byte under the application/x-www-form-urlencoded serializer used
by URLSearchParams.toString: space becomes a plus sign; ASCII
alphanumerics and asterisk, hyphen, period, underscore pass through;
every other byte is percent-encoded. -/
def formEncodeByte (n : Nat) : String :=
  if n = 32 then "+"
  else if (48 ≤ n && n ≤ 57) || (65 ≤ n && n ≤ 90) || (97 ≤ n && n ≤ 122)
      || n = 42 || n = 45 || n = 46 || n = 95 then
    String.singleton (Char.ofNat n)
  else "%" ++ String.mk [hexUpperDigit (n / 16), hexUpperDigit (n % 16)]

/-- Form-urlencoded serialization of a string (UTF-8 then byte-wise). -/
def formEncode (s : String) : String :=
  String.join (s.data.map (fun c => String.join ((utf8Bytes c).map formEncodeByte)))

/-- URLSearchParams(pairs).toString(): each pair serialized as
key=value with both sides form-encoded, pairs joined by ampersands in
insertion order. -/
def urlSearchParamsToString (pairs : List (String × String)) : String :=
  String.intercalate "&" (pairs.map (fun kv => formEncode kv.1 ++ "=" ++ formEncode kv.2))

/-- First stage of the Vercel order handler in api/jupiter-order.ts:
method check, API-key check, the missing filter over the four required
keys, then an upstream fetch (default method GET) to the base URL plus
/order with a query rebuilt by URLSearchParams from exactly the four
required values in fixed order, the key in the x-api-key header. -/
def vercelOrderStage1 (apiKey : Option String) (req : VercelOrderRequest) : Stage1 :=
  if req.method ≠ "GET" then .done (methodNotAllowed "GET")
  else
    match apiKey with
    | none => .done (sendJson 500 (jsonError jupiterKeyMissingVercelMsg))
    | some key =>
      if key = "" then .done (sendJson 500 (jsonError jupiterKeyMissingVercelMsg))
      else
        let missing := missingOrderParams req.query
        if missing.length > 0 then
          .done (sendJson 400
            (jsonError ("Missing required parameter(s): " ++ String.intercalate ", " missing)))
        else
          .fetch ⟨"GET",
                  JUPITER_ULTRA_BASE_URL ++ "/order?" ++ urlSearchParamsToString
                    [("inputMint", qvalToString (req.query.lookup "inputMint")),
                     ("outputMint", qvalToString (req.query.lookup "outputMint")),
                     ("amount", qvalToString (req.query.lookup "amount")),
                     ("taker", qvalToString (req.query.lookup "taker"))],
                  [("x-api-key", key)], none⟩

/-- The full Vercel order handler. -/
def vercelOrderHandler (apiKey : Option String) (req : VercelOrderRequest)
    (fr : FetchResult) : ClientResponse :=
  match vercelOrderStage1 apiKey req with
  | .done r => r
  | .fetch _ => runFetchVercel fr

/-- The platform-delivered req.body of the Vercel execute handler, as
parseBody distinguishes it: a truthy object (used as is; arrays are
objects and are covered by obj, their missing fields reading as
undefined), a string that JSON.parse maps to a value other than null
(strOk: objects carry their fields, and arrays or primitives other than
null carry none since property access on them silently yields
undefined), a string whose JSON text is null (strNull: JSON.parse
succeeds but the later property access throws a TypeError), a string on
which JSON.parse throws (strErr), or anything else (null, undefined,
numbers), which the truthiness and typeof tests send to the empty-object
fallback (otherB). -/
inductive VercelBody where
  | obj (fields : JsonFields)
  | strOk (fields : JsonFields)
  | strNull
  | strErr (msg : String)
  | otherB
deriving DecidableEq, Repr

/-- parseBody from the Vercel execute handler. -/
def parseBody : VercelBody → Except String BodyVal
  | .obj fields => .ok (.objVal fields)
  | .strOk fields => .ok (.objVal fields)
  | .strNull => .ok .nullVal
  | .strErr msg => .error msg
  | .otherB => .ok (.objVal [])

/-- A request to the Vercel execute handler. -/
structure VercelExecuteRequest where
  method : String
  body : VercelBody
deriving DecidableEq, Repr

/-- The 400 message of the Vercel execute handler. -/
def vercelExecuteRequiredMsg : String :=
  "signedTransaction and requestId are required in the execute payload."

/-- First stage of the Vercel execute handler (api/jupiter-execute):
method check, API-key check, parseBody inside the try (a parse failure
becomes a 500 through the catch, and a string body whose JSON text is
null throws a TypeError at the access body.signedTransaction, also
caught as a 500), the falsy test on the two required string fields, then
the upstream POST to the base URL plus /execute with exactly those two
fields as its JSON body and the key in the x-api-key header. -/
def vercelExecuteStage1 (apiKey : Option String) (req : VercelExecuteRequest) : Stage1 :=
  if req.method ≠ "POST" then .done (methodNotAllowed "POST")
  else
    match apiKey with
    | none => .done (sendJson 500 (jsonError jupiterKeyMissingVercelMsg))
    | some key =>
      if key = "" then .done (sendJson 500 (jsonError jupiterKeyMissingVercelMsg))
      else
        match parseBody req.body with
        | .error msg => .done (sendJson 500 (jsonError msg))
        | .ok .nullVal => .done (sendJson 500 (jsonError (nullReadMsg "signedTransaction")))
        | .ok (.objVal fields) =>
          match lookupStr fields "signedTransaction", lookupStr fields "requestId" with
          | some st, some rid =>
            if st = "" ∨ rid = "" then
              .done (sendJson 400 (jsonError vercelExecuteRequiredMsg))
            else
              .fetch ⟨"POST", JUPITER_ULTRA_BASE_URL ++ "/execute",
                      [("x-api-key", key), ("Content-Type", "application/json")],
                      some (jsonObj2 "signedTransaction" st "requestId" rid)⟩
          | _, _ => .done (sendJson 400 (jsonError vercelExecuteRequiredMsg))

/-- The full Vercel execute handler. -/
def vercelExecuteHandler (apiKey : Option String) (req : VercelExecuteRequest)
    (fr : FetchResult) : ClientResponse :=
  match vercelExecuteStage1 apiKey req with
  | .done r => r
  | .fetch _ => runFetchVercel fr

/-- A concrete stand-in for the platform URL parser, used only to
instantiate theorems at concrete inputs: it accepts the scenario URL of
the spec with its query component and rejects every other string the way
the URL constructor rejects a scheme-less string. -/
def demoUrlSearch : String → Except String String := fun s =>
  if s = "https://x.example/pay?a=1&b=2" then .ok "?a=1&b=2"
  else .error ("Invalid URL: " ++ s)

/-- A concrete stand-in for the HMAC primitive, used only to instantiate
theorems at concrete inputs. -/
def demoHmac : String → String → String := fun key msg =>
  "hmac(" ++ key ++ "," ++ msg ++ ")"

/-- Claim C1: a POST to the signing endpoint whose JSON body has a string
field url that parses as a URL, with a signing secret configured, yields
status 200 with body containing a signature field equal to the base64
HMAC-SHA256, keyed by the secret, of the query-string component of the
URL including its leading question mark. -/
theorem C1_sign_signature_of_query
    (urlSearch : String → Except String String)
    (hmacSha256Base64 : String → String → String)
    (sec : String) (fields : JsonFields) (u q : String)
    (hsec : sec ≠ "")
    (hu : lookupStr fields "url" = some u) (hne : u ≠ "")
    (hq : urlSearch u = .ok q) :
    signMoonPayHandler urlSearch hmacSha256Base64 (some sec) "POST" (.obj fields)
      = sendJson 200 (jsonObj1 "signature" (hmacSha256Base64 sec q)) := by
  simp [signMoonPayHandler, readBodyResult, hu, hne, hq, hsec]

/-- Witness for C1 at the scenario input of the spec. -/
theorem C1_sign_signature_of_query_witness :
    signMoonPayHandler demoUrlSearch demoHmac (some "k") "POST"
        (.obj [("url", .str "https://x.example/pay?a=1&b=2")])
      = sendJson 200 (jsonObj1 "signature" (demoHmac "k" "?a=1&b=2")) :=
  C1_sign_signature_of_query demoUrlSearch demoHmac "k"
    [("url", .str "https://x.example/pay?a=1&b=2")]
    "https://x.example/pay?a=1&b=2" "?a=1&b=2"
    (by decide) rfl (by decide) rfl

/-- Counterexample to claim C2 as stated: a POST whose url field is a
non-empty string the URL constructor rejects returns 500 (the parse
error is thrown inside the try block and lands in the generic catch),
not the claimed 400. -/
theorem C2_counterexample :
    demoUrlSearch "notaurl" = .error "Invalid URL: notaurl" ∧
    (signMoonPayHandler demoUrlSearch demoHmac (some "k") "POST"
        (.obj [("url", .str "notaurl")])).status = 500 ∧
    (signMoonPayHandler demoUrlSearch demoHmac (some "k") "POST"
        (.obj [("url", .str "notaurl")])).status ≠ 400 := by
  refine ⟨rfl, rfl, ?_⟩
  decide

/-- Claim C2 as amended: with no secret configured (unset or empty) every
POST gets a 500 with the configuration message; a missing, non-string or
empty url field gets a 400; a non-empty url string the URL parser rejects
gets a 500 carrying the parse error message; an unparseable JSON body and
any other exception get a 500 carrying the exception message. -/
theorem C2_sign_error_paths
    (urlSearch : String → Except String String)
    (hmacSha256Base64 : String → String → String) :
    (∀ body, signMoonPayHandler urlSearch hmacSha256Base64 none "POST" body
        = sendJson 500 (jsonError moonPayMissingSecretMsg)) ∧
    (∀ body, signMoonPayHandler urlSearch hmacSha256Base64 (some "") "POST" body
        = sendJson 500 (jsonError moonPayMissingSecretMsg)) ∧
    (∀ sec, sec ≠ "" →
      signMoonPayHandler urlSearch hmacSha256Base64 (some sec) "POST" .empty
        = sendJson 400 (jsonError moonPayMissingUrlMsg)) ∧
    (∀ sec fields, sec ≠ "" → lookupStr fields "url" = none →
      signMoonPayHandler urlSearch hmacSha256Base64 (some sec) "POST" (.obj fields)
        = sendJson 400 (jsonError moonPayMissingUrlMsg)) ∧
    (∀ sec fields, sec ≠ "" → lookupStr fields "url" = some "" →
      signMoonPayHandler urlSearch hmacSha256Base64 (some sec) "POST" (.obj fields)
        = sendJson 400 (jsonError moonPayMissingUrlMsg)) ∧
    (∀ sec fields u msg, sec ≠ "" → lookupStr fields "url" = some u → u ≠ "" →
      urlSearch u = .error msg →
      signMoonPayHandler urlSearch hmacSha256Base64 (some sec) "POST" (.obj fields)
        = sendJson 500 (jsonError msg)) ∧
    (∀ sec msg, sec ≠ "" →
      signMoonPayHandler urlSearch hmacSha256Base64 (some sec) "POST" (.invalid msg)
        = sendJson 500 (jsonError msg)) := by
  refine ⟨?_, ?_, ?_, ?_, ?_, ?_, ?_⟩ <;> intros <;>
    simp_all [signMoonPayHandler, readBodyResult, lookupStr, List.lookup]

/-- Witness for C2 at a concrete input: an invalid JSON body with the
secret configured yields a 500 carrying the parse message. -/
theorem C2_sign_error_paths_witness :
    signMoonPayHandler demoUrlSearch demoHmac (some "k") "POST" (.invalid "Unexpected token")
      = sendJson 500 (jsonError "Unexpected token") :=
  (C2_sign_error_paths demoUrlSearch demoHmac).2.2.2.2.2.2 "k" "Unexpected token" (by decide)

/-- Claim C3 as amended: the dev-server order middleware returns a 400
naming the first missing required parameter in the fixed order inputMint,
outputMint, amount, taker, and with only inputMint and outputMint set the
first missing parameter is amount; the Vercel order handler instead
returns a 400 naming every missing parameter, joined with commas after
the words Missing required parameter(s), and with only inputMint and
outputMint set it names amount and taker together. -/
theorem C3_missing_param_responses :
    (∀ (key : String) (req : MwOrderRequest) (p : String), key ≠ "" → req.method = "GET" →
      firstMissingParam req.params = some p →
      mwOrderStage1 (some key) req
        = .done (sendJson 400 (jsonError ("Missing required parameter: " ++ p)))) ∧
    (∀ (key : String) (req : VercelOrderRequest), key ≠ "" → req.method = "GET" →
      missingOrderParams req.query ≠ [] →
      vercelOrderStage1 (some key) req
        = .done (sendJson 400 (jsonError ("Missing required parameter(s): "
            ++ String.intercalate ", " (missingOrderParams req.query))))) ∧
    firstMissingParam [("inputMint", "i"), ("outputMint", "o")] = some "amount" ∧
    missingOrderParams [("inputMint", QVal.str "i"), ("outputMint", QVal.str "o")]
      = ["amount", "taker"] := by
  refine ⟨?_, ?_, by decide, by decide⟩
  · intro key req p hk hm hmiss
    simp [mwOrderStage1, hm, hk, hmiss]
  · intro key req hk hm hmiss
    simp [vercelOrderStage1, hm, hk, List.length_pos, hmiss]

/-- Witness for C3 at the scenario query with only inputMint and
outputMint set, against the middleware. -/
theorem C3_missing_param_responses_witness :
    mwOrderStage1 (some "k")
        ⟨"GET", "?inputMint=i&outputMint=o", [("inputMint", "i"), ("outputMint", "o")]⟩
      = .done (sendJson 400 (jsonError ("Missing required parameter: " ++ "amount"))) :=
  C3_missing_param_responses.1 "k"
    ⟨"GET", "?inputMint=i&outputMint=o", [("inputMint", "i"), ("outputMint", "o")]⟩
    "amount" (by decide) rfl (by decide)

/-- Counterexample to claim C3 as stated: on the Vercel order handler the
scenario query with only inputMint and outputMint set yields a 400 whose
error names both missing parameters, not the claimed message naming only
amount. -/
theorem C3_counterexample :
    vercelOrderStage1 (some "k")
        ⟨"GET", "?inputMint=i&outputMint=o",
         [("inputMint", QVal.str "i"), ("outputMint", QVal.str "o")]⟩
      = .done (sendJson 400 (jsonError "Missing required parameter(s): amount, taker")) ∧
    jsonError "Missing required parameter(s): amount, taker"
      ≠ jsonError "Missing required parameter: amount" := by
  exact ⟨by decide, by decide⟩

/-- Claim C4: with the key unset or empty, every correctly-methoded
request to the four proxy handlers gets the configuration 500 at once,
whatever its query or body (so before any field validation), and no
upstream fetch is issued; and whenever required-field validation fails,
the handler finishes in its first stage without issuing a fetch. -/
theorem C4_no_upstream_on_error :
    (∀ req : MwOrderRequest, req.method = "GET" →
      mwOrderStage1 none req = .done (sendJson 500 (jsonError jupiterKeyMissingMwMsg)) ∧
      mwOrderStage1 (some "") req = .done (sendJson 500 (jsonError jupiterKeyMissingMwMsg))) ∧
    (∀ req : MwExecuteRequest, req.method = "POST" →
      mwExecuteStage1 none req = .done (sendJson 500 (jsonError jupiterKeyMissingMwMsg)) ∧
      mwExecuteStage1 (some "") req = .done (sendJson 500 (jsonError jupiterKeyMissingMwMsg))) ∧
    (∀ req : VercelOrderRequest, req.method = "GET" →
      vercelOrderStage1 none req = .done (sendJson 500 (jsonError jupiterKeyMissingVercelMsg)) ∧
      vercelOrderStage1 (some "") req
        = .done (sendJson 500 (jsonError jupiterKeyMissingVercelMsg))) ∧
    (∀ req : VercelExecuteRequest, req.method = "POST" →
      vercelExecuteStage1 none req = .done (sendJson 500 (jsonError jupiterKeyMissingVercelMsg)) ∧
      vercelExecuteStage1 (some "") req
        = .done (sendJson 500 (jsonError jupiterKeyMissingVercelMsg))) ∧
    (∀ (key : String) (req : MwOrderRequest) (p : String),
      firstMissingParam req.params = some p →
      ∃ r, mwOrderStage1 (some key) req = .done r) ∧
    (∀ (key : String) (req : VercelOrderRequest),
      missingOrderParams req.query ≠ [] →
      ∃ r, vercelOrderStage1 (some key) req = .done r) ∧
    (∀ (key : String) (req : MwExecuteRequest) (fields : JsonFields),
      readBodyResult req.body = .ok (.objVal fields) →
      strFalsy (lookupStr fields "signedTransaction")
        ∨ strFalsy (lookupStr fields "requestId") →
      ∃ r, mwExecuteStage1 (some key) req = .done r) ∧
    (∀ (key : String) (req : VercelExecuteRequest) (fields : JsonFields),
      parseBody req.body = .ok (.objVal fields) →
      strFalsy (lookupStr fields "signedTransaction")
        ∨ strFalsy (lookupStr fields "requestId") →
      ∃ r, vercelExecuteStage1 (some key) req = .done r) := by
  refine ⟨?_, ?_, ?_, ?_, ?_, ?_, ?_, ?_⟩
  · intro req hm
    constructor <;> simp [mwOrderStage1, hm]
  · intro req hm
    constructor <;> simp [mwExecuteStage1, hm]
  · intro req hm
    constructor <;> simp [vercelOrderStage1, hm]
  · intro req hm
    constructor <;> simp [vercelExecuteStage1, hm]
  · intro key req p hp
    unfold mwOrderStage1
    repeat' split
    all_goals first
      | exact ⟨_, rfl⟩
      | simp_all [strFalsy]
  · intro key req hmiss
    unfold vercelOrderStage1
    repeat' split
    all_goals first
      | exact ⟨_, rfl⟩
      | simp_all [strFalsy, List.length_pos]
  · intro key req fields hb hfal
    unfold mwExecuteStage1
    repeat' split
    all_goals first
      | exact ⟨_, rfl⟩
      | simp_all [strFalsy]
  · intro key req fields hb hfal
    unfold vercelExecuteStage1
    repeat' split
    all_goals first
      | exact ⟨_, rfl⟩
      | simp_all [strFalsy]

/-- Witness for C4: the unconfigured-key 500 on a concrete order request
whose query is not even valid. -/
theorem C4_no_upstream_on_error_witness :
    mwOrderStage1 none ⟨"GET", "", []⟩
      = .done (sendJson 500 (jsonError jupiterKeyMissingMwMsg)) :=
  (C4_no_upstream_on_error.1 ⟨"GET", "", []⟩ rfl).1

/-- Claim C5: both relay helpers send the upstream status unchanged, the
upstream content type with application/json as the default, and the
upstream body byte for byte, an empty body becoming the two-character
object literal; and each full handler, once its first stage decides to
fetch, answers with exactly that relay of the fetch outcome, so non-2xx
upstream statuses pass through untranslated. -/
theorem C5_forward_relays_upstream :
    (∀ up : UpstreamResponse,
      (forwardJupiterResponse up).status = up.status ∧
      (forwardJupiterResponse up).contentType = some (up.contentType.getD "application/json") ∧
      (forwardJupiterResponse up).allow = none ∧
      (up.body ≠ "" → (forwardJupiterResponse up).body = up.body) ∧
      (up.body = "" → (forwardJupiterResponse up).body = "\x7b\x7d") ∧
      forwardResponse up = forwardJupiterResponse up) ∧
    (∀ apiKey req u fr, mwOrderStage1 apiKey req = .fetch u →
      mwOrderHandler apiKey req fr = runFetchMw fr) ∧
    (∀ apiKey req u fr, mwExecuteStage1 apiKey req = .fetch u →
      mwExecuteHandler apiKey req fr = runFetchMw fr) ∧
    (∀ apiKey req u fr, vercelOrderStage1 apiKey req = .fetch u →
      vercelOrderHandler apiKey req fr = runFetchVercel fr) ∧
    (∀ apiKey req u fr, vercelExecuteStage1 apiKey req = .fetch u →
      vercelExecuteHandler apiKey req fr = runFetchVercel fr) ∧
    (∀ up, runFetchMw (.ok up) = forwardJupiterResponse up) ∧
    (∀ up, runFetchVercel (.ok up) = forwardResponse up) := by
  refine ⟨?_, ?_, ?_, ?_, ?_, fun _ => rfl, fun _ => rfl⟩
  · intro up
    refine ⟨rfl, rfl, rfl, ?_, ?_, rfl⟩ <;> intro h <;>
      simp [forwardJupiterResponse, h]
  · intro apiKey req u fr h
    unfold mwOrderHandler
    rw [h]
  · intro apiKey req u fr h
    unfold mwExecuteHandler
    rw [h]
  · intro apiKey req u fr h
    unfold vercelOrderHandler
    rw [h]
  · intro apiKey req u fr h
    unfold vercelExecuteHandler
    rw [h]

/-- Witness for C5: a concrete empty-bodied 502 upstream response is
relayed as a 502 whose body is the object literal. -/
theorem C5_forward_relays_upstream_witness :
    (forwardJupiterResponse ⟨502, none, ""⟩).body = "\x7b\x7d" :=
  (C5_forward_relays_upstream.1 ⟨502, none, ""⟩).2.2.2.2.1 rfl

/-- Claim C6: every request whose method differs from the single accepted
one (POST for the signature endpoint and the execute handlers, GET for
the order handlers) gets the 405 response with the Allow header naming
exactly that method and an empty body, before any configuration check,
body parsing, validation or upstream fetch. -/
theorem C6_method_not_allowed
    (urlSearch : String → Except String String)
    (hmacSha256Base64 : String → String → String) :
    (∀ secret m body, m ≠ "POST" →
      signMoonPayHandler urlSearch hmacSha256Base64 secret m body = methodNotAllowed "POST") ∧
    (∀ apiKey (req : MwOrderRequest), req.method ≠ "GET" →
      mwOrderStage1 apiKey req = .done (methodNotAllowed "GET")) ∧
    (∀ apiKey (req : MwExecuteRequest), req.method ≠ "POST" →
      mwExecuteStage1 apiKey req = .done (methodNotAllowed "POST")) ∧
    (∀ apiKey (req : VercelOrderRequest), req.method ≠ "GET" →
      vercelOrderStage1 apiKey req = .done (methodNotAllowed "GET")) ∧
    (∀ apiKey (req : VercelExecuteRequest), req.method ≠ "POST" →
      vercelExecuteStage1 apiKey req = .done (methodNotAllowed "POST")) ∧
    methodNotAllowed "POST" = ⟨405, none, some "POST", ""⟩ ∧
    methodNotAllowed "GET" = ⟨405, none, some "GET", ""⟩ := by
  refine ⟨?_, ?_, ?_, ?_, ?_, rfl, rfl⟩ <;> intros <;>
    simp_all [signMoonPayHandler, mwOrderStage1, mwExecuteStage1,
      vercelOrderStage1, vercelExecuteStage1]

/-- Witness for C6: a POST to the order middleware gets the 405 with
Allow GET. -/
theorem C6_method_not_allowed_witness :
    mwOrderStage1 (some "k") ⟨"POST", "", []⟩ = .done (methodNotAllowed "GET") :=
  (C6_method_not_allowed demoUrlSearch demoHmac).2.1 (some "k") ⟨"POST", "", []⟩ (by decide)

/-- Claim C7 as amended: on a valid GET with the key configured, the
order middleware fetches the fixed base URL plus /order with the original
search string appended unchanged, while the Vercel order handler fetches
the fixed base URL plus /order with a query rebuilt from exactly the four
required parameters in fixed order, re-encoded by URLSearchParams; in
both, the key is sent only in the x-api-key request header and the
upstream URL and body are key-free expressions of the request alone. -/
theorem C7_upstream_request_shape :
    (∀ (key : String) (req : MwOrderRequest), key ≠ "" → req.method = "GET" →
      firstMissingParam req.params = none →
      mwOrderStage1 (some key) req
        = .fetch ⟨"GET", JUPITER_ULTRA_BASE_URL ++ "/order" ++ req.search,
                  [("x-api-key", key)], none⟩) ∧
    (∀ (key : String) (req : VercelOrderRequest), key ≠ "" → req.method = "GET" →
      missingOrderParams req.query = [] →
      vercelOrderStage1 (some key) req
        = .fetch ⟨"GET", JUPITER_ULTRA_BASE_URL ++ "/order?" ++ urlSearchParamsToString
              [("inputMint", qvalToString (req.query.lookup "inputMint")),
               ("outputMint", qvalToString (req.query.lookup "outputMint")),
               ("amount", qvalToString (req.query.lookup "amount")),
               ("taker", qvalToString (req.query.lookup "taker"))],
            [("x-api-key", key)], none⟩) := by
  constructor
  · intro key req hk hm hnone
    simp [mwOrderStage1, hm, hk, hnone]
  · intro key req hk hm hmiss
    simp [vercelOrderStage1, hm, hk, hmiss]

/-- A fully valid request to the order middleware, for instantiation. -/
def c7MwReq : MwOrderRequest :=
  ⟨"GET", "?inputMint=i&outputMint=o&amount=1&taker=t",
   [("inputMint", "i"), ("outputMint", "o"), ("amount", "1"), ("taker", "t")]⟩

/-- Witness for C7: on the concrete valid middleware request the upstream
URL is the base plus /order plus the original search string, the key only
in the header. -/
theorem C7_upstream_request_shape_witness :
    mwOrderStage1 (some "k") c7MwReq
      = .fetch ⟨"GET", JUPITER_ULTRA_BASE_URL ++ "/order" ++ c7MwReq.search,
                [("x-api-key", "k")], none⟩ :=
  C7_upstream_request_shape.1 "k" c7MwReq (by decide) rfl (by decide)

/-- A valid Vercel order request carrying a fifth query parameter. -/
def c7VercelReq : VercelOrderRequest :=
  ⟨"GET", "?inputMint=i&outputMint=o&amount=1&taker=t&extra=x",
   [("inputMint", QVal.str "i"), ("outputMint", QVal.str "o"),
    ("amount", QVal.str "1"), ("taker", QVal.str "t"), ("extra", QVal.str "x")]⟩

/-- Counterexample to claim C7 as stated: the Vercel order handler drops
a fifth query parameter when rebuilding the upstream query, so the
upstream URL is not the base plus /order plus the original query string. -/
theorem C7_counterexample :
    vercelOrderStage1 (some "k") c7VercelReq
      = .fetch ⟨"GET",
          "https://api.jup.ag/ultra/v1/order?inputMint=i&outputMint=o&amount=1&taker=t",
          [("x-api-key", "k")], none⟩ ∧
    "https://api.jup.ag/ultra/v1/order?inputMint=i&outputMint=o&amount=1&taker=t"
      ≠ JUPITER_ULTRA_BASE_URL ++ "/order" ++ c7VercelReq.search := by
  exact ⟨by decide, by decide⟩

/-- Claim C8 as amended: with the key configured, both execute handlers
return a 400 when the body parses to a non-null value lacking a
non-empty string signedTransaction or a non-empty string requestId (the
empty body included), the middleware with the message naming the Jupiter
execute payload and the Vercel handler with the message naming just the
execute payload; a body whose JSON text is null instead throws a
TypeError at the property access and yields a 500 carrying that message;
otherwise both fetch the fixed base URL plus /execute with a JSON body
holding exactly the two fields, any extra client fields dropped, and the
key in the x-api-key header. -/
theorem C8_execute_payload_behaviour :
    (∀ (key st rid : String) (fields : JsonFields) (req : MwExecuteRequest),
      key ≠ "" → req.method = "POST" → readBodyResult req.body = .ok (.objVal fields) →
      lookupStr fields "signedTransaction" = some st → st ≠ "" →
      lookupStr fields "requestId" = some rid → rid ≠ "" →
      mwExecuteStage1 (some key) req
        = .fetch ⟨"POST", JUPITER_ULTRA_BASE_URL ++ "/execute",
                  [("x-api-key", key), ("Content-Type", "application/json")],
                  some (jsonObj2 "signedTransaction" st "requestId" rid)⟩) ∧
    (∀ (key st rid : String) (fields : JsonFields) (req : VercelExecuteRequest),
      key ≠ "" → req.method = "POST" → parseBody req.body = .ok (.objVal fields) →
      lookupStr fields "signedTransaction" = some st → st ≠ "" →
      lookupStr fields "requestId" = some rid → rid ≠ "" →
      vercelExecuteStage1 (some key) req
        = .fetch ⟨"POST", JUPITER_ULTRA_BASE_URL ++ "/execute",
                  [("x-api-key", key), ("Content-Type", "application/json")],
                  some (jsonObj2 "signedTransaction" st "requestId" rid)⟩) ∧
    (∀ key : String, key ≠ "" →
      mwExecuteStage1 (some key) ⟨"POST", .empty⟩
        = .done (sendJson 400 (jsonError mwExecuteRequiredMsg))) ∧
    (∀ key : String, key ≠ "" →
      vercelExecuteStage1 (some key) ⟨"POST", .otherB⟩
        = .done (sendJson 400 (jsonError vercelExecuteRequiredMsg))) ∧
    (∀ (key : String) (fields : JsonFields) (req : MwExecuteRequest),
      key ≠ "" → req.method = "POST" → readBodyResult req.body = .ok (.objVal fields) →
      strFalsy (lookupStr fields "signedTransaction")
        ∨ strFalsy (lookupStr fields "requestId") →
      mwExecuteStage1 (some key) req = .done (sendJson 400 (jsonError mwExecuteRequiredMsg))) ∧
    (∀ (key : String) (fields : JsonFields) (req : VercelExecuteRequest),
      key ≠ "" → req.method = "POST" → parseBody req.body = .ok (.objVal fields) →
      strFalsy (lookupStr fields "signedTransaction")
        ∨ strFalsy (lookupStr fields "requestId") →
      vercelExecuteStage1 (some key) req
        = .done (sendJson 400 (jsonError vercelExecuteRequiredMsg))) ∧
    (∀ key : String, key ≠ "" →
      mwExecuteStage1 (some key) ⟨"POST", .nullParse⟩
        = .done (sendJson 500 (jsonError (nullReadMsg "signedTransaction")))) ∧
    (∀ key : String, key ≠ "" →
      vercelExecuteStage1 (some key) ⟨"POST", .strNull⟩
        = .done (sendJson 500 (jsonError (nullReadMsg "signedTransaction")))) := by
  refine ⟨?_, ?_, ?_, ?_, ?_, ?_, ?_, ?_⟩
  · intro key st rid fields req hk hm hb hst hstne hrid hridne
    simp [mwExecuteStage1, hm, hk, hb, hst, hstne, hrid, hridne]
  · intro key st rid fields req hk hm hb hst hstne hrid hridne
    simp [vercelExecuteStage1, hm, hk, hb, hst, hstne, hrid, hridne]
  · intro key hk
    simp [mwExecuteStage1, hk, readBodyResult, lookupStr, List.lookup]
  · intro key hk
    simp [vercelExecuteStage1, hk, parseBody, lookupStr, List.lookup]
  · intro key fields req hk hm hb hfal
    unfold mwExecuteStage1
    repeat' split
    all_goals simp_all [strFalsy]
  · intro key fields req hk hm hb hfal
    unfold vercelExecuteStage1
    repeat' split
    all_goals simp_all [strFalsy]
  · intro key hk
    simp [mwExecuteStage1, hk, readBodyResult]
  · intro key hk
    simp [vercelExecuteStage1, hk, parseBody]

/-- Witness for C8: a middleware execute body with the two fields and an
extra one fetches upstream with exactly the two fields serialized. -/
theorem C8_execute_payload_behaviour_witness :
    mwExecuteStage1 (some "k")
        ⟨"POST", .obj [("signedTransaction", .str "sig"), ("requestId", .str "rid"),
                       ("extra", .str "x")]⟩
      = .fetch ⟨"POST", JUPITER_ULTRA_BASE_URL ++ "/execute",
                [("x-api-key", "k"), ("Content-Type", "application/json")],
                some (jsonObj2 "signedTransaction" "sig" "requestId" "rid")⟩ :=
  C8_execute_payload_behaviour.1 "k" "sig" "rid"
    [("signedTransaction", .str "sig"), ("requestId", .str "rid"), ("extra", .str "x")]
    ⟨"POST", .obj [("signedTransaction", .str "sig"), ("requestId", .str "rid"),
                   ("extra", .str "x")]⟩
    (by decide) rfl rfl rfl (by decide) rfl (by decide)

/-- Counterexample to claim C8 as stated: the Vercel execute handler
answers the empty body with a 400 whose error message does not contain
the word Jupiter, differing from the message the claim fixes. -/
theorem C8_counterexample :
    vercelExecuteStage1 (some "k") ⟨"POST", .otherB⟩
      = .done (sendJson 400
          (jsonError "signedTransaction and requestId are required in the execute payload.")) ∧
    jsonError "signedTransaction and requestId are required in the execute payload."
      ≠ jsonError
          "signedTransaction and requestId are required in the Jupiter execute payload." := by
  exact ⟨by decide, by decide⟩

/-- A stage-one result with the header list of an outgoing fetch erased:
what a handler does apart from the headers it attaches to the upstream
request. Two keys giving the same erased result issue fetches differing
at most in headers and answer clients identically. -/
def eraseHeaders : Stage1 → Stage1
  | .done r => .done r
  | .fetch u => .fetch ⟨u.method, u.url, [], u.body⟩

/-- Claim C9: the configured credentials never reach a response body. The
signing endpoint response depends on the secret only through the HMAC
digest (two secrets with the same digests on every message produce
identical responses), and for each of the four proxy handlers both the
client response (given the same upstream outcome) and everything about
the issued upstream request except its header list are independent of
the configured key. -/
theorem C9_credentials_noninterference :
    (∀ (urlSearch : String → Except String String)
       (hmacSha256Base64 : String → String → String)
       (s1 s2 method : String) (body : BodyRaw),
      s1 ≠ "" → s2 ≠ "" →
      (∀ q, hmacSha256Base64 s1 q = hmacSha256Base64 s2 q) →
      signMoonPayHandler urlSearch hmacSha256Base64 (some s1) method body
        = signMoonPayHandler urlSearch hmacSha256Base64 (some s2) method body) ∧
    (∀ (k1 k2 : String) (req : MwOrderRequest) (fr : FetchResult),
      k1 ≠ "" → k2 ≠ "" →
      mwOrderHandler (some k1) req fr = mwOrderHandler (some k2) req fr) ∧
    (∀ (k1 k2 : String) (req : MwExecuteRequest) (fr : FetchResult),
      k1 ≠ "" → k2 ≠ "" →
      mwExecuteHandler (some k1) req fr = mwExecuteHandler (some k2) req fr) ∧
    (∀ (k1 k2 : String) (req : VercelOrderRequest) (fr : FetchResult),
      k1 ≠ "" → k2 ≠ "" →
      vercelOrderHandler (some k1) req fr = vercelOrderHandler (some k2) req fr) ∧
    (∀ (k1 k2 : String) (req : VercelExecuteRequest) (fr : FetchResult),
      k1 ≠ "" → k2 ≠ "" →
      vercelExecuteHandler (some k1) req fr = vercelExecuteHandler (some k2) req fr) ∧
    (∀ (k1 k2 : String) (req : MwOrderRequest), k1 ≠ "" → k2 ≠ "" →
      eraseHeaders (mwOrderStage1 (some k1) req)
        = eraseHeaders (mwOrderStage1 (some k2) req)) ∧
    (∀ (k1 k2 : String) (req : MwExecuteRequest), k1 ≠ "" → k2 ≠ "" →
      eraseHeaders (mwExecuteStage1 (some k1) req)
        = eraseHeaders (mwExecuteStage1 (some k2) req)) ∧
    (∀ (k1 k2 : String) (req : VercelOrderRequest), k1 ≠ "" → k2 ≠ "" →
      eraseHeaders (vercelOrderStage1 (some k1) req)
        = eraseHeaders (vercelOrderStage1 (some k2) req)) ∧
    (∀ (k1 k2 : String) (req : VercelExecuteRequest), k1 ≠ "" → k2 ≠ "" →
      eraseHeaders (vercelExecuteStage1 (some k1) req)
        = eraseHeaders (vercelExecuteStage1 (some k2) req)) := by
  refine ⟨?_, ?_, ?_, ?_, ?_, ?_, ?_, ?_, ?_⟩
  · intro us hm s1 s2 m b h1 h2 hq
    simp [signMoonPayHandler, h1, h2, hq]
  · intro k1 k2 req fr h1 h2
    by_cases hm : req.method ≠ "GET"
    · simp [mwOrderHandler, mwOrderStage1, hm]
    · cases hfm : firstMissingParam req.params <;>
        simp [mwOrderHandler, mwOrderStage1, hm, hfm, h1, h2]
  · intro k1 k2 req fr h1 h2
    by_cases hm : req.method ≠ "POST"
    · simp [mwExecuteHandler, mwExecuteStage1, hm]
    · cases hb : readBodyResult req.body with
      | error msg => simp [mwExecuteHandler, mwExecuteStage1, hm, hb, h1, h2]
      | ok bv =>
        cases bv with
        | nullVal => simp [mwExecuteHandler, mwExecuteStage1, hm, hb, h1, h2]
        | objVal fields =>
          rcases hst : lookupStr fields "signedTransaction" with _ | st
          · simp [mwExecuteHandler, mwExecuteStage1, hm, hb, hst, h1, h2]
          · rcases hrid : lookupStr fields "requestId" with _ | rid
            · simp [mwExecuteHandler, mwExecuteStage1, hm, hb, hst, hrid, h1, h2]
            · by_cases hc : st = "" ∨ rid = "" <;>
                simp [mwExecuteHandler, mwExecuteStage1, hm, hb, hst, hrid, hc, h1, h2]
  · intro k1 k2 req fr h1 h2
    by_cases hm : req.method ≠ "GET"
    · simp [vercelOrderHandler, vercelOrderStage1, hm]
    · by_cases hl : (missingOrderParams req.query).length > 0 <;>
        simp [vercelOrderHandler, vercelOrderStage1, hm, hl, h1, h2]
  · intro k1 k2 req fr h1 h2
    by_cases hm : req.method ≠ "POST"
    · simp [vercelExecuteHandler, vercelExecuteStage1, hm]
    · cases hb : parseBody req.body with
      | error msg => simp [vercelExecuteHandler, vercelExecuteStage1, hm, hb, h1, h2]
      | ok bv =>
        cases bv with
        | nullVal => simp [vercelExecuteHandler, vercelExecuteStage1, hm, hb, h1, h2]
        | objVal fields =>
          rcases hst : lookupStr fields "signedTransaction" with _ | st
          · simp [vercelExecuteHandler, vercelExecuteStage1, hm, hb, hst, h1, h2]
          · rcases hrid : lookupStr fields "requestId" with _ | rid
            · simp [vercelExecuteHandler, vercelExecuteStage1, hm, hb, hst, hrid, h1, h2]
            · by_cases hc : st = "" ∨ rid = "" <;>
                simp [vercelExecuteHandler, vercelExecuteStage1, hm, hb, hst, hrid, hc, h1, h2]
  · intro k1 k2 req h1 h2
    by_cases hm : req.method ≠ "GET"
    · simp [mwOrderStage1, hm]
    · cases hfm : firstMissingParam req.params <;>
        simp [eraseHeaders, mwOrderStage1, hm, hfm, h1, h2]
  · intro k1 k2 req h1 h2
    by_cases hm : req.method ≠ "POST"
    · simp [mwExecuteStage1, hm]
    · cases hb : readBodyResult req.body with
      | error msg => simp [mwExecuteStage1, hm, hb, h1, h2]
      | ok bv =>
        cases bv with
        | nullVal => simp [eraseHeaders, mwExecuteStage1, hm, hb, h1, h2]
        | objVal fields =>
          rcases hst : lookupStr fields "signedTransaction" with _ | st
          · simp [eraseHeaders, mwExecuteStage1, hm, hb, hst, h1, h2]
          · rcases hrid : lookupStr fields "requestId" with _ | rid
            · simp [eraseHeaders, mwExecuteStage1, hm, hb, hst, hrid, h1, h2]
            · by_cases hc : st = "" ∨ rid = "" <;>
                simp [eraseHeaders, mwExecuteStage1, hm, hb, hst, hrid, hc, h1, h2]
  · intro k1 k2 req h1 h2
    by_cases hm : req.method ≠ "GET"
    · simp [vercelOrderStage1, hm]
    · by_cases hl : (missingOrderParams req.query).length > 0 <;>
        simp [eraseHeaders, vercelOrderStage1, hm, hl, h1, h2]
  · intro k1 k2 req h1 h2
    by_cases hm : req.method ≠ "POST"
    · simp [vercelExecuteStage1, hm]
    · cases hb : parseBody req.body with
      | error msg => simp [vercelExecuteStage1, hm, hb, h1, h2]
      | ok bv =>
        cases bv with
        | nullVal => simp [eraseHeaders, vercelExecuteStage1, hm, hb, h1, h2]
        | objVal fields =>
          rcases hst : lookupStr fields "signedTransaction" with _ | st
          · simp [eraseHeaders, vercelExecuteStage1, hm, hb, hst, h1, h2]
          · rcases hrid : lookupStr fields "requestId" with _ | rid
            · simp [eraseHeaders, vercelExecuteStage1, hm, hb, hst, hrid, h1, h2]
            · by_cases hc : st = "" ∨ rid = "" <;>
                simp [eraseHeaders, vercelExecuteStage1, hm, hb, hst, hrid, hc, h1, h2]

/-- Witness for C9 at concrete keys: the order middleware answers a
failing fetch identically under two different keys. -/
theorem C9_credentials_noninterference_witness :
    mwOrderHandler (some "k1") c7MwReq (.error "network down")
      = mwOrderHandler (some "k2") c7MwReq (.error "network down") :=
  C9_credentials_noninterference.2.1 "k1" "k2" c7MwReq (.error "network down")
    (by decide) (by decide)

/-- Claim C10: with the secret or key configured, a POST whose raw body
is syntactically invalid JSON makes readBody (middleware) or parseBody
(Vercel execute, on a string body) throw; the generic catch turns that
into a 500 carrying the parse message, never a 400 validation error. -/
theorem C10_invalid_json_is_500 :
    (∀ (urlSearch : String → Except String String)
       (hmacSha256Base64 : String → String → String) (sec msg : String), sec ≠ "" →
      signMoonPayHandler urlSearch hmacSha256Base64 (some sec) "POST" (.invalid msg)
        = sendJson 500 (jsonError msg)) ∧
    (∀ key msg : String, key ≠ "" →
      mwExecuteStage1 (some key) ⟨"POST", .invalid msg⟩
        = .done (sendJson 500 (jsonError msg))) ∧
    (∀ key msg : String, key ≠ "" →
      vercelExecuteStage1 (some key) ⟨"POST", .strErr msg⟩
        = .done (sendJson 500 (jsonError msg))) ∧
    (∀ msg, (sendJson 500 (jsonError msg)).status = 500
      ∧ (sendJson 500 (jsonError msg)).status ≠ 400) := by
  refine ⟨?_, ?_, ?_, fun msg => ⟨rfl, by simp [sendJson]⟩⟩ <;> intros <;>
    simp_all [signMoonPayHandler, mwExecuteStage1, vercelExecuteStage1,
      readBodyResult, parseBody]

/-- Witness for C10: a concrete parse failure message surfaces in a 500
from the execute middleware. -/
theorem C10_invalid_json_is_500_witness :
    mwExecuteStage1 (some "k") ⟨"POST", .invalid "Unexpected end of JSON input"⟩
      = .done (sendJson 500 (jsonError "Unexpected end of JSON input")) :=
  C10_invalid_json_is_500.2.1 "k" "Unexpected end of JSON input" (by decide)

end LookMtkp
